import Mathlib

/-!
Verification of `fios-stats` (`src/main.rs`), a tool that logs in to a Fios
Quantum G1000 router, fetches network counters from `/api/network/1`, optionally
pushes them to InfluxDB, and logs out.

The Rust source is shallowly embedded below: machine integers become `Nat` with
explicit `% 2 ^ w` where wrap-around matters, fallible operations return
`Option`/`Except`, `unwrap` panics become an explicit `panicked` outcome, and
network effects are made explicit by passing the server's responses (HTTP
status, cookies, bodies) as arguments.
-/

namespace FiosStats

/-! ### SHA-512 (model of the `sha2` crate used by `do_login`)

`do_login` computes `Sha512(password ++ passwordSalt)` via the incremental
`Digest` API (`hasher.input(password); hasher.input(password_salt)`), then
formats the 64-byte digest with `{:x}` (lowercase hex, two digits per byte).
We embed SHA-512 (FIPS 180-4) over byte lists, with 64-bit words as `Nat`
reduced mod `2 ^ 64`. -/

/-- 64-bit word modulus. -/
def wordMod : Nat := 2 ^ 64

/-- Addition of 64-bit words, wrapping mod `2 ^ 64`. -/
def wadd (a b : Nat) : Nat := (a + b) % wordMod

/-- Right rotation of a 64-bit word. -/
def rotr (x n : Nat) : Nat := ((x >>> n) ||| (x <<< (64 - n))) % wordMod

/-- Bitwise complement of a 64-bit word (`x < 2 ^ 64`). -/
def wnot (x : Nat) : Nat := x ^^^ (wordMod - 1)

/-- SHA-512 `Ch` function. -/
def ch (x y z : Nat) : Nat := (x &&& y) ^^^ (wnot x &&& z)

/-- SHA-512 `Maj` function. -/
def maj (x y z : Nat) : Nat := (x &&& y) ^^^ (x &&& z) ^^^ (y &&& z)

/-- SHA-512 big sigma 0. -/
def bsig0 (x : Nat) : Nat := rotr x 28 ^^^ rotr x 34 ^^^ rotr x 39

/-- SHA-512 big sigma 1. -/
def bsig1 (x : Nat) : Nat := rotr x 14 ^^^ rotr x 18 ^^^ rotr x 41

/-- SHA-512 small sigma 0. -/
def ssig0 (x : Nat) : Nat := rotr x 1 ^^^ rotr x 8 ^^^ (x >>> 7)

/-- SHA-512 small sigma 1. -/
def ssig1 (x : Nat) : Nat := rotr x 19 ^^^ rotr x 61 ^^^ (x >>> 6)

/-- The 80 SHA-512 round constants K of FIPS 180-4, written in decimal;
the `sha512Hex_abc` test vector below pins them down. -/
def sha512K : List Nat :=
  [4794697086780616226,
   8158064640168781261,
   13096744586834688815,
   16840607885511220156,
   4131703408338449720,
   6480981068601479193,
   10538285296894168987,
   12329834152419229976,
   15566598209576043074,
   1334009975649890238,
   2608012711638119052,
   6128411473006802146,
   8268148722764581231,
   9286055187155687089,
   11230858885718282805,
   13951009754708518548,
   16472876342353939154,
   17275323862435702243,
   1135362057144423861,
   2597628984639134821,
   3308224258029322869,
   5365058923640841347,
   6679025012923562964,
   8573033837759648693,
   10970295158949994411,
   12119686244451234320,
   12683024718118986047,
   13788192230050041572,
   14330467153632333762,
   15395433587784984357,
   489312712824947311,
   1452737877330783856,
   2861767655752347644,
   3322285676063803686,
   5560940570517711597,
   5996557281743188959,
   7280758554555802590,
   8532644243296465576,
   9350256976987008742,
   10552545826968843579,
   11727347734174303076,
   12113106623233404929,
   14000437183269869457,
   14369950271660146224,
   15101387698204529176,
   15463397548674623760,
   17586052441742319658,
   1182934255886127544,
   1847814050463011016,
   2177327727835720531,
   2830643537854262169,
   3796741975233480872,
   4115178125766777443,
   5681478168544905931,
   6601373596472566643,
   7507060721942968483,
   8399075790359081724,
   8693463985226723168,
   9568029438360202098,
   10144078919501101548,
   10430055236837252648,
   11840083180663258601,
   13761210420658862357,
   14299343276471374635,
   14566680578165727644,
   15097957966210449927,
   16922976911328602910,
   17689382322260857208,
   500013540394364858,
   748580250866718886,
   1242879168328830382,
   1977374033974150939,
   2944078676154940804,
   3659926193048069267,
   4368137639120453308,
   4836135668995329356,
   5532061633213252278,
   6448918945643986474,
   6902733635092675308,
   7801388544844847127]

/-- The SHA-512 working state / hash value: eight 64-bit words. -/
structure Hash8 where
  a : Nat
  b : Nat
  c : Nat
  d : Nat
  e : Nat
  f : Nat
  g : Nat
  h : Nat
deriving DecidableEq, Repr

/-- The SHA-512 initial hash value H0 of FIPS 180-4, written in decimal. -/
def sha512H0 : Hash8 :=
  ⟨7640891576956012808,
   13503953896175478587,
   4354685564936845355,
   11912009170470909681,
   5840696475078001361,
   11170449401992604703,
   2270897969802886507,
   6620516959819538809⟩

/-- Render `n` as `k` bytes, big-endian (most significant byte first). -/
def toBytesBE : Nat → Nat → List Nat
  | 0, _ => []
  | k + 1, n => toBytesBE k (n >>> 8) ++ [n % 256]

/-- Big-endian bytes to a number. -/
def bytesToWord (bs : List Nat) : Nat := bs.foldl (fun acc b => acc * 256 + b) 0

/-- SHA padding: append `0x80`, zero bytes up to 112 mod 128, then the bit
length as a 16-byte big-endian integer, reaching a multiple of 128 bytes. -/
def padMsg (msg : List Nat) : List Nat :=
  let l := msg.length
  let zeros := if l % 128 < 112 then 111 - l % 128 else 239 - l % 128
  msg ++ [0x80] ++ List.replicate zeros 0 ++ toBytesBE 16 (l * 8)

/-- Split a byte list into 128-byte blocks, with structural recursion on a
fuel bound: every step on a nonempty list consumes at least one element, so
`l.length` steps always suffice. -/
def chunks128Aux : Nat → List Nat → List (List Nat)
  | 0, _ => []
  | fuel + 1, l => if l.isEmpty then [] else l.take 128 :: chunks128Aux fuel (l.drop 128)

/-- Split a byte list into 128-byte blocks. -/
def chunks128 (l : List Nat) : List (List Nat) := chunks128Aux l.length l

/-- Split a 128-byte block into its sixteen big-endian 64-bit words. -/
def blockWords (block : List Nat) : List Nat :=
  (List.range 16).map (fun i => bytesToWord ((block.drop (8 * i)).take 8))

/-- Extend the 16 message words to the full 80-entry message schedule:
`W t = ssig1 (W (t-2)) + W (t-7) + ssig0 (W (t-15)) + W (t-16)`. -/
def buildW (ws : List Nat) : Nat → List Nat
  | 0 => ws
  | k + 1 =>
    let w := buildW ws k
    let t := w.length
    w ++ [wadd (wadd (ssig1 (w.getD (t - 2) 0)) (w.getD (t - 7) 0))
              (wadd (ssig0 (w.getD (t - 15) 0)) (w.getD (t - 16) 0))]

/-- One SHA-512 compression round with round constant `k` and schedule word `w`. -/
def compressRound (s : Hash8) (kw : Nat × Nat) : Hash8 :=
  let t1 := wadd s.h (wadd (bsig1 s.e) (wadd (ch s.e s.f s.g) (wadd kw.1 kw.2)))
  let t2 := wadd (bsig0 s.a) (maj s.a s.b s.c)
  ⟨wadd t1 t2, s.a, s.b, s.c, wadd s.d t1, s.e, s.f, s.g⟩

/-- Process one 128-byte block, updating the hash value. -/
def processBlock (h0 : Hash8) (block : List Nat) : Hash8 :=
  let w := buildW (blockWords block) 64
  let s := (sha512K.zip w).foldl compressRound h0
  ⟨wadd h0.a s.a, wadd h0.b s.b, wadd h0.c s.c, wadd h0.d s.d,
   wadd h0.e s.e, wadd h0.f s.f, wadd h0.g s.g, wadd h0.h s.h⟩

/-- SHA-512 digest (64 bytes) of a byte message. -/
def sha512Bytes (msg : List Nat) : List Nat :=
  let f := (chunks128 (padMsg msg)).foldl processBlock sha512H0
  toBytesBE 8 f.a ++ toBytesBE 8 f.b ++ toBytesBE 8 f.c ++ toBytesBE 8 f.d ++
  toBytesBE 8 f.e ++ toBytesBE 8 f.f ++ toBytesBE 8 f.g ++ toBytesBE 8 f.h

/-- Lowercase hex digit for `n < 16`. -/
def hexDigit (n : Nat) : Char := if n < 10 then Char.ofNat (48 + n) else Char.ofNat (87 + n)

/-- Two lowercase hex digits of a byte, as in Rust `{:02x}`. -/
def byteHex (b : Nat) : List Char := [hexDigit (b / 16), hexDigit (b % 16)]

/-- Lowercase hex rendering of a byte list (Rust `{:x}` on a digest). -/
def toHex (bs : List Nat) : String := ⟨bs.foldr (fun b acc => byteHex b ++ acc) []⟩

/-- UTF-8 encoding of a code point. -/
def utf8Bytes (c : Nat) : List Nat :=
  if c < 0x80 then [c]
  else if c < 0x800 then
    [0xC0 ||| (c >>> 6), 0x80 ||| (c &&& 0x3F)]
  else if c < 0x10000 then
    [0xE0 ||| (c >>> 12), 0x80 ||| ((c >>> 6) &&& 0x3F), 0x80 ||| (c &&& 0x3F)]
  else
    [0xF0 ||| (c >>> 18), 0x80 ||| ((c >>> 12) &&& 0x3F),
     0x80 ||| ((c >>> 6) &&& 0x3F), 0x80 ||| (c &&& 0x3F)]

/-- The UTF-8 bytes of a string (Rust `&str` contents). -/
def strBytes (s : String) : List Nat := (s.data.map (fun ch => utf8Bytes ch.toNat)).flatten

/-- SHA-512 of a byte message, rendered as 128 lowercase hex characters.
This is the spec-side description: "a 512-bit cryptographic hash over the
concatenation, rendered as lowercase hexadecimal". -/
def sha512Hex (msg : List Nat) : String := toHex (sha512Bytes msg)

/-! ### The incremental hasher API as used by `do_login`

`let mut hasher = Sha512::new(); hasher.input(password); hasher.input(password_salt);
let hash = hasher.result();` — the incremental `input` calls accumulate bytes and
`result` digests the accumulated stream. -/

/-- Model of `Sha512::new()` / incremental input: the accumulated byte stream. -/
structure Sha512Hasher where
  buf : List Nat

/-- Model of `Sha512::new()`. -/
def Sha512Hasher.new : Sha512Hasher := ⟨[]⟩

/-- Model of `hasher.input(data)`. -/
def Sha512Hasher.input (h : Sha512Hasher) (data : List Nat) : Sha512Hasher := ⟨h.buf ++ data⟩

/-- Model of `hasher.result()`: the SHA-512 digest of everything fed in. -/
def Sha512Hasher.result (h : Sha512Hasher) : List Nat := sha512Bytes h.buf

/-- The hex password hash computed by `do_login` (`src/main.rs:158-161` plus the
`{:x}` formatting on line 162): feed `password`, then `password_salt`, digest,
render lowercase hex. -/
def do_login_hash (password password_salt : String) : String :=
  toHex (((Sha512Hasher.new.input (strBytes password)).input (strBytes password_salt)).result)

/-! ### Data model and errors (`src/main.rs:35-56`, `198-228`) -/

/-- Embedding of `struct AuthInfo \x7b token: String, session: u32 \x7d` with `#[derive(Default)]`
(token defaults to `""`, session to `0`); `session : Nat` carries the `u32`
value, always `< 2 ^ 32`. -/
structure AuthInfo where
  token : String
  session : Nat
deriving DecidableEq, Repr

/-- Model of `AuthInfo::default()`. -/
def AuthInfo.default : AuthInfo := ⟨"", 0⟩

/-- Embedding of `enum FetchError` with variants `Http`, `Url`, `Json`, `Simple`. The payloads
we never inspect are collapsed; `json`/`simple` keep the message. -/
inductive FetchError where
  | http
  | url
  | json (msg : String)
  | simple (msg : String)
deriving DecidableEq, Repr

/-- Embedding of `const BASE_URI: &str`. -/
def BASE_URI : String := "https://myfiosgateway.com/api/"

/-- Display of an HTTP status code. reqwest's `StatusCode` Display renders the
numeric code followed by the canonical reason phrase; we model the numeric
part, which is what identifies the status. -/
def statusDisplay (code : Nat) : String := toString code

/-- Model of `StatusCode::is_success()`: the 2xx range. -/
def isSuccessStatus (code : Nat) : Prop := 200 ≤ code ∧ code < 300

instance (code : Nat) : Decidable (isSuccessStatus code) := by
  unfold isSuccessStatus; infer_instance

/-! ### Cookie parsing in `do_login` (`src/main.rs:170-180`) -/

/-- Rust `str::parse::<u32>()`: optional leading `+`, at least one ASCII digit,
and the value must fit in a `u32`; anything else is an error (`none`). -/
def parseU32 (s : String) : Option Nat :=
  let digits := match s.data with
    | '+' :: rest => rest
    | l => l
  if digits.isEmpty then none
  else if digits.all (fun c => 48 ≤ c.toNat && c.toNat ≤ 57) then
    let v := digits.foldl (fun acc c => acc * 10 + (c.toNat - 48)) 0
    if v < 2 ^ 32 then some v else none
  else none

/-- Possible outcomes of `do_login`: `Ok(info)`, `Err(e)` (via `bail!` or `?`),
or a panic from `cookie.value().parse().unwrap()`. -/
inductive LoginOutcome where
  | ok (info : AuthInfo)
  | fetchErr (e : FetchError)
  | panicked
deriving DecidableEq, Repr

/-- The cookie loop of `do_login`: for each response cookie in order,
`"XSRF-TOKEN"` overwrites `info.token`, `"Session"` overwrites `info.session`
with `value.parse().unwrap()` (a parse failure panics, modelled as `none`),
and any other name is skipped. Cookies are (name, value) pairs. -/
def processCookies (info : AuthInfo) : List (String × String) → Option AuthInfo
  | [] => some info
  | c :: rest =>
    if c.1 = "XSRF-TOKEN" then processCookies ⟨c.2, info.session⟩ rest
    else if c.1 = "Session" then
      match parseU32 c.2 with
      | some n => processCookies ⟨info.token, n⟩ rest
      | none => none
    else processCookies info rest

/-- The POST request issued by `do_login` (`src/main.rs:162-168`): URL
`BASE_URI ++ "login"`, content-type `application/json;charset=UTF-8`, body
`{"password":"<hex hash>"}`. -/
structure PostRequest where
  url : String
  contentType : String
  body : String
deriving DecidableEq, Repr

/-- The login POST request built from the operator password and the
challenge's salt. -/
def loginRequest (password password_salt : String) : PostRequest :=
  { url := BASE_URI ++ "login"
    contentType := "application/json;charset=UTF-8"
    body := "\x7b\"password\":\"" ++ do_login_hash password password_salt ++ "\"\x7d" }

/-- Embedding of `do_login` (`src/main.rs:155-183`), with the server's response made
explicit: given the response's HTTP status and its cookies, return the POST
request sent together with the outcome. On a success status the cookie loop
runs from `AuthInfo::default()`; otherwise `bail!("Could not login: {status}")`
produces a `FetchError::Simple` and the response body is never inspected. -/
def do_login (password password_salt : String) (code : Nat)
    (cookies : List (String × String)) : PostRequest × LoginOutcome :=
  (loginRequest password password_salt,
   if isSuccessStatus code then
     match processCookies AuthInfo.default cookies with
     | some info => .ok info
     | none => .panicked
   else .fetchErr (.simple ("Could not login: " ++ statusDisplay code)))

/-! ### Authenticated client and `fetch_api` (`src/main.rs:95-107`, `147-153`) -/

/-- Model of `http::HeaderValue::from_str`: it accepts exactly the strings whose bytes are
tab or fall in 32..=255 excluding DEL (127); a `&str`'s multi-byte UTF-8
characters only contribute bytes ≥ 128, so the check is per character: tab, or
code point ≥ 32 and ≠ 127 (multi-byte code points are ≥ 128 anyway). -/
def validHeaderValue (s : String) : Bool :=
  s.data.all (fun ch => ch = '\t' || (32 ≤ ch.toNat && ch.toNat ≠ 127))

/-- The default header map the authenticated client is built with
(`src/main.rs:95-107`): `x-xsrf-token` from the token and a `cookie` header
`Session=<id>;`. Each `HeaderValue::from_str` failure propagates with `?`,
modelled as `none`. -/
def buildAuthHeaders (auth : AuthInfo) : Option (List (String × String)) :=
  if validHeaderValue auth.token then
    if validHeaderValue ("Session=" ++ toString auth.session ++ ";") then
      some [("x-xsrf-token", auth.token),
            ("cookie", "Session=" ++ toString auth.session ++ ";")]
    else none
  else none

/-- A GET request as issued by `fetch_api`. -/
structure GetRequest where
  url : String
  headers : List (String × String)
deriving DecidableEq, Repr

/-- Embedding of `fetch_api(client, api)` (`src/main.rs:147-153`): GET `BASE_URI ++ api`;
the client attaches its fixed default headers to every request. -/
def fetch_api (defaultHeaders : List (String × String)) (api : String) : GetRequest :=
  { url := BASE_URI ++ api, headers := defaultHeaders }

/-! ### JSON values and metric extraction (`src/main.rs:109-117`) -/

/-- Embedding of `serde_json::Value`, restricted to the shapes the program meets. Numbers
are modelled as the non-negative integers `as_u64` can yield (a `u64` fits iff
`n < 2 ^ 64`); negative or fractional numbers would make `asU64` fail just as
a non-number does, so they are not distinguished here. -/
inductive Json where
  | null
  | bool (b : Bool)
  | num (n : Nat)
  | str (s : String)
  | arr (elems : List Json)
  | obj (fields : List (String × Json))

/-- Model of `value[key]` on a `serde_json::Value`: field of an object, `Null` when the
key is absent or the value is not an object. -/
def Json.get (j : Json) (key : String) : Json :=
  match j with
  | .obj fields => ((fields.find? (fun f => f.1 = key)).map Prod.snd).getD .null
  | _ => .null

/-- Model of `value[i]`: element of an array, `Null` when out of range or not an array. -/
def Json.idx (j : Json) (i : Nat) : Json :=
  match j with
  | .arr elems => elems.getD i .null
  | _ => .null

/-- Model of `Value::as_u64`: `some n` exactly on numbers representable as `u64`. -/
def Json.asU64 : Json → Option Nat
  | .num n => if n < 2 ^ 64 then some n else none
  | _ => none

/-- The `* 8` scaling applied to every counter (`src/main.rs:113-116`):
unchecked `u64` multiplication, i.e. mod `2 ^ 64`. -/
def scale8 (n : Nat) : Nat := n * 8 % 2 ^ 64

/-- Metric extraction from the parsed `/api/network/1` document
(`src/main.rs:113-116`): `as_u64().unwrap() * 8` at the four fixed paths;
any `unwrap` failure panics, modelled as `none`. -/
def extractMetrics (data : Json) : Option (Nat × Nat × Nat × Nat) :=
  match (((data.get "bandwidth").get "minutesRx").idx 0).asU64,
        (((data.get "bandwidth").get "minutesTx").idx 0).asU64,
        (data.get "rxErrors").asU64,
        (data.get "rxDropped").asU64 with
  | some rx, some tx, some errors, some dropped =>
    some (scale8 rx, scale8 tx, scale8 errors, scale8 dropped)
  | _, _, _, _ => none

/-! ### `save_data` (`src/main.rs:185-196`) -/

/-- The sink POST request built by `save_data`: operator URI, content-type
`application/json;charset=UTF-8`, the line-protocol text as body. -/
def save_data_request (influx_uri : String) (data : String) : PostRequest :=
  { url := influx_uri, contentType := "application/json;charset=UTF-8", body := data }

/-- The status check of `save_data`: anything other than
`StatusCode::NO_CONTENT` (204) is `bail!("Unexpected status from InfluxDB: ..")`. -/
def save_data (status : Nat) : Except FetchError Unit :=
  if status ≠ 204 then
    .error (.simple ("Unexpected status from InfluxDB: " ++ statusDisplay status))
  else .ok ()

/-! ### The tail of `main` after the authenticated client is built
(`src/main.rs:109-137`) -/

/-- The externally visible steps `main` can attempt after login. -/
inductive MainStep where
  | fetchNetwork
  | saveToInflux
  | fetchLogout
deriving DecidableEq, Repr

/-- Final fate of the process for the modelled tail of `main`. -/
inductive MainOutcome where
  | ok
  | err (e : FetchError)
  | panicked
deriving DecidableEq, Repr

/-- The server-side outcomes `main` meets after login: the `network/1` fetch,
the `serde_json::from_str` result on its body, the optional sink URI, the
sink's HTTP status (when the push is attempted and transport succeeds), and
the logout fetch. -/
structure PostAuthEnv where
  networkResult : Except FetchError String
  parseResult : Except FetchError Json
  influxUri : Option String
  sinkStatus : Nat
  logoutResult : Except FetchError String

/-- The tail of `main` (`src/main.rs:109-137`): fetch `network/1` (`?`), parse
the body (`?`), extract the four metrics (`unwrap`s), then — only when a sink
URI was given — `save_data(..)?`, and finally `fetch_api(.., "logout")?`.
Returns the list of steps attempted, in order, and the outcome. Each early
`?` return skips every later step. -/
def mainAfterAuth (env : PostAuthEnv) : List MainStep × MainOutcome :=
  match env.networkResult with
  | .error e => ([.fetchNetwork], .err e)
  | .ok _ =>
    match env.parseResult with
    | .error e => ([.fetchNetwork], .err e)
    | .ok data =>
      match extractMetrics data with
      | none => ([.fetchNetwork], .panicked)
      | some _ =>
        match env.influxUri with
        | some _ =>
          match save_data env.sinkStatus with
          | .error e => ([.fetchNetwork, .saveToInflux], .err e)
          | .ok _ =>
            match env.logoutResult with
            | .error e => ([.fetchNetwork, .saveToInflux, .fetchLogout], .err e)
            | .ok _ => ([.fetchNetwork, .saveToInflux, .fetchLogout], .ok)
        | none =>
          match env.logoutResult with
          | .error e => ([.fetchNetwork, .fetchLogout], .err e)
          | .ok _ => ([.fetchNetwork, .fetchLogout], .ok)

/-- Values of the cookies named `XSRF-TOKEN`, in response order. -/
def xsrfValues (cookies : List (String × String)) : List String :=
  (cookies.filter (fun c => c.1 = "XSRF-TOKEN")).map Prod.snd

/-- Values of the cookies named `Session`, in response order. -/
def sessionValues (cookies : List (String × String)) : List String :=
  (cookies.filter (fun c => c.1 = "Session")).map Prod.snd

/-- Discriminator: is the outcome an error result (a returned `FetchError`)? -/
def LoginOutcome.isFetchErr : LoginOutcome → Bool
  | .fetchErr _ => true
  | _ => false

/-- A well-formed `/api/network/1` document with the four counters. -/
def networkDoc (rx tx errors dropped : Nat) : Json :=
  .obj [("bandwidth", .obj [("minutesRx", .arr [.num rx]), ("minutesTx", .arr [.num tx])]),
        ("rxErrors", .num errors), ("rxDropped", .num dropped)]

/-! ## Helper lemmas -/

theorem xsrfValues_cons (c : String × String) (rest : List (String × String)) :
    xsrfValues (c :: rest) =
      if c.1 = "XSRF-TOKEN" then c.2 :: xsrfValues rest else xsrfValues rest := by
  by_cases hx : c.1 = "XSRF-TOKEN" <;> simp [xsrfValues, List.filter_cons, hx]

theorem sessionValues_cons (c : String × String) (rest : List (String × String)) :
    sessionValues (c :: rest) =
      if c.1 = "Session" then c.2 :: sessionValues rest else sessionValues rest := by
  by_cases hs : c.1 = "Session" <;> simp [sessionValues, List.filter_cons, hs]

/-- Full characterization of the cookie loop when every `Session` cookie value
parses: the loop returns the last `XSRF-TOKEN` value (or the initial token) and
the parse of the last `Session` value (or the initial session). -/
theorem processCookies_char (l : List (String × String)) : ∀ info : AuthInfo,
    (∀ v ∈ sessionValues l, (parseU32 v).isSome) →
    processCookies info l =
      some ⟨(xsrfValues l).getLastD info.token,
            ((sessionValues l).filterMap parseU32).getLastD info.session⟩ := by
  induction l with
  | nil =>
    intro info _
    simp [processCookies, xsrfValues, sessionValues]
  | cons c rest ih =>
    intro info hparse
    by_cases hx : c.1 = "XSRF-TOKEN"
    · have hs : ¬ (c.1 = "Session") := by rw [hx]; decide
      have hrest : ∀ v ∈ sessionValues rest, (parseU32 v).isSome := by
        intro v hv
        exact hparse v (by rw [sessionValues_cons, if_neg hs]; exact hv)
      rw [processCookies, if_pos hx, ih ⟨c.2, info.session⟩ hrest,
          xsrfValues_cons, if_pos hx, sessionValues_cons, if_neg hs,
          List.getLastD_cons]
    · by_cases hs : c.1 = "Session"
      · have hmem : c.2 ∈ sessionValues (c :: rest) := by
          rw [sessionValues_cons, if_pos hs]; exact List.mem_cons_self _ _
        have hsome := hparse c.2 hmem
        obtain ⟨n, hn⟩ := Option.isSome_iff_exists.mp hsome
        have hrest : ∀ v ∈ sessionValues rest, (parseU32 v).isSome := by
          intro v hv
          exact hparse v (by rw [sessionValues_cons, if_pos hs]; exact List.mem_cons_of_mem _ hv)
        rw [processCookies, if_neg hx, if_pos hs, hn]
        show processCookies ⟨info.token, n⟩ rest = _
        rw [ih ⟨info.token, n⟩ hrest, xsrfValues_cons, if_neg hx,
            sessionValues_cons, if_pos hs, List.filterMap_cons_some hn,
            List.getLastD_cons]
      · have hrest : ∀ v ∈ sessionValues rest, (parseU32 v).isSome := by
          intro v hv
          exact hparse v (by rw [sessionValues_cons, if_neg hs]; exact hv)
        rw [processCookies, if_neg hx, if_neg hs, ih info hrest,
            xsrfValues_cons, if_neg hx, sessionValues_cons, if_neg hs]

/-- The cookie loop panics (returns `none`) as soon as some `Session` cookie
value fails to parse. -/
theorem processCookies_panics (l : List (String × String)) : ∀ info : AuthInfo,
    (∃ v ∈ sessionValues l, parseU32 v = none) →
    processCookies info l = none := by
  induction l with
  | nil =>
    intro info h
    simp [sessionValues] at h
  | cons c rest ih =>
    intro info h
    by_cases hx : c.1 = "XSRF-TOKEN"
    · have hs : ¬ (c.1 = "Session") := by rw [hx]; decide
      rw [sessionValues_cons, if_neg hs] at h
      rw [processCookies, if_pos hx]
      exact ih _ h
    · by_cases hs : c.1 = "Session"
      · rw [sessionValues_cons, if_pos hs] at h
        obtain ⟨v, hv, hnone⟩ := h
        rw [processCookies, if_neg hx, if_pos hs]
        rcases List.mem_cons.mp hv with hv | hv
        · subst hv
          rw [hnone]
        · cases hp : parseU32 c.2 with
          | none => rfl
          | some n =>
            show processCookies ⟨info.token, n⟩ rest = none
            exact ih _ ⟨v, hv, hnone⟩
      · rw [sessionValues_cons, if_neg hs] at h
        rw [processCookies, if_neg hx, if_neg hs]
        exact ih _ h

theorem toBytesBE_length (k : Nat) : ∀ n : Nat, (toBytesBE k n).length = k := by
  induction k with
  | zero => intro n; rfl
  | succ k ih => intro n; simp [toBytesBE, ih]

theorem toBytesBE_lt (k : Nat) : ∀ n : Nat, ∀ b ∈ toBytesBE k n, b < 256 := by
  induction k with
  | zero => intro n b hb; simp [toBytesBE] at hb
  | succ k ih =>
    intro n b hb
    simp only [toBytesBE, List.mem_append, List.mem_singleton] at hb
    rcases hb with hb | hb
    · exact ih _ b hb
    · subst hb; exact Nat.mod_lt _ (by omega)

theorem sha512Bytes_length (msg : List Nat) : (sha512Bytes msg).length = 64 := by
  simp [sha512Bytes, toBytesBE_length]

theorem sha512Bytes_lt (msg : List Nat) : ∀ b ∈ sha512Bytes msg, b < 256 := by
  intro b hb
  simp only [sha512Bytes, List.mem_append] at hb
  rcases hb with ((((((hb | hb) | hb) | hb) | hb) | hb) | hb) | hb <;>
    exact toBytesBE_lt 8 _ b hb

theorem toHex_length (bs : List Nat) : (toHex bs).length = 2 * bs.length := by
  show (bs.foldr (fun b acc => byteHex b ++ acc) []).length = 2 * bs.length
  induction bs with
  | nil => rfl
  | cons b rest ih =>
    rw [List.foldr_cons, List.length_append, ih, List.length_cons]
    show 2 + 2 * rest.length = 2 * (rest.length + 1)
    omega

theorem hexDigit_mem (n : Nat) (h : n < 16) : hexDigit n ∈ "0123456789abcdef".data := by
  interval_cases n <;> decide

theorem toHex_mem (bs : List Nat) (hlt : ∀ b ∈ bs, b < 256) :
    ∀ c ∈ (toHex bs).data, c ∈ "0123456789abcdef".data := by
  show ∀ c ∈ bs.foldr (fun b acc => byteHex b ++ acc) [], _
  induction bs with
  | nil => intro c hc; simp at hc
  | cons b rest ih =>
    intro c hc
    simp only [List.foldr_cons, List.mem_append] at hc
    rcases hc with hc | hc
    · have hb : b < 256 := hlt b (List.mem_cons_self _ _)
      simp only [byteHex, List.mem_cons, List.not_mem_nil, or_false] at hc
      rcases hc with hc | hc <;> subst hc
      · exact hexDigit_mem _ (by omega)
      · exact hexDigit_mem _ (Nat.mod_lt _ (by omega))
    · exact ih (fun x hx => hlt x (List.mem_cons_of_mem _ hx)) c hc

set_option maxRecDepth 100000 in
/-- Sanity check of the SHA-512 embedding against the FIPS 180-4 test vector
for the message `"abc"`. -/
theorem sha512Hex_abc :
    sha512Hex (strBytes "abc") =
      "ddaf35a193617abacc417349ae20413112e6fa4e89a97ea20a9eeee64b55d39a2192992a274fc1a836ba3c23a3feebbd454d4423643ce80e2a9ac94fa54ca49f" := by
  decide

/-! ## Claims -/

/-- C1: for every login where the server returns a challenge (the salt) and
then a success response carrying both a cookie named `XSRF-TOKEN` and a cookie
named `Session` whose value parses as an unsigned integer, `do_login` returns
an `AuthInfo` whose token equals the `XSRF-TOKEN` cookie value and whose
session equals the integer parsed from the `Session` cookie value; every
cookie with any other name is ignored (the cookie list may contain arbitrary
further cookies with other names). -/
theorem do_login_success_extracts_cookies
    (password password_salt : String) (code : Nat) (cookies : List (String × String))
    (t s : String) (n : Nat)
    (hcode : isSuccessStatus code)
    (hx : xsrfValues cookies = [t])
    (hs : sessionValues cookies = [s])
    (hn : parseU32 s = some n) :
    (do_login password password_salt code cookies).2 = .ok ⟨t, n⟩ := by
  have hparse : ∀ v ∈ sessionValues cookies, (parseU32 v).isSome := by
    rw [hs]
    intro v hv
    rw [List.mem_singleton] at hv
    subst hv
    simp [hn]
  have hchar := processCookies_char cookies AuthInfo.default hparse
  rw [hx, hs, List.filterMap_cons_some hn, List.filterMap_nil] at hchar
  simp only [do_login, if_pos hcode, hchar, List.getLastD_cons, List.getLastD_nil]

/-- Witness for C1: status 200 with an ignored extra cookie, `XSRF-TOKEN=tok`
and `Session=1234` yields token `"tok"` and session `1234`. -/
theorem do_login_success_extracts_cookies_witness :
    (do_login "hunter2" "SALT" 200
        [("Other", "zzz"), ("XSRF-TOKEN", "tok"), ("Session", "1234")]).2 =
      .ok ⟨"tok", 1234⟩ :=
  do_login_success_extracts_cookies "hunter2" "SALT" 200
    [("Other", "zzz"), ("XSRF-TOKEN", "tok"), ("Session", "1234")]
    "tok" "1234" 1234 (by decide) (by decide) (by decide) (by decide)

/-- C2: for every login where the POST step receives a non-success HTTP
status, `do_login` fails with the `bail!`-produced authentication error
carrying that status code; the cookies/body are universally quantified and
never inspected, and no (partial) `AuthInfo` is produced. -/
theorem do_login_nonsuccess_auth_error
    (password password_salt : String) (code : Nat) (cookies : List (String × String))
    (hcode : ¬ isSuccessStatus code) :
    (do_login password password_salt code cookies).2 =
      .fetchErr (.simple ("Could not login: " ++ statusDisplay code)) := by
  simp only [do_login, if_neg hcode]

/-- Witness for C2: a 401 response fails with the auth error carrying 401,
whatever cookies came along. -/
theorem do_login_nonsuccess_auth_error_witness :
    (do_login "hunter2" "SALT" 401 [("XSRF-TOKEN", "tok"), ("Session", "1234")]).2 =
      .fetchErr (.simple ("Could not login: " ++ statusDisplay 401)) :=
  do_login_nonsuccess_auth_error "hunter2" "SALT" 401
    [("XSRF-TOKEN", "tok"), ("Session", "1234")] (by decide)

/-- C3: for all (password, salt) string pairs, the login hash computed by
`do_login` equals SHA-512 of the byte concatenation `password ++ salt` with no
separator, rendered as lowercase hexadecimal; it is deterministic, always
exactly 128 characters long, and every character is a lowercase hex digit. -/
theorem do_login_hash_spec (password password_salt : String) :
    do_login_hash password password_salt =
      sha512Hex (strBytes password ++ strBytes password_salt) ∧
    (do_login_hash password password_salt).length = 128 ∧
    (∀ c ∈ (do_login_hash password password_salt).data, c ∈ "0123456789abcdef".data) ∧
    ∀ p' s', password = p' → password_salt = s' →
      do_login_hash password password_salt = do_login_hash p' s' := by
  have heq : do_login_hash password password_salt =
      sha512Hex (strBytes password ++ strBytes password_salt) := by
    simp [do_login_hash, sha512Hex, Sha512Hasher.new, Sha512Hasher.input, Sha512Hasher.result]
  refine ⟨heq, ?_, ?_, ?_⟩
  · rw [heq]
    show (toHex (sha512Bytes _)).length = 128
    rw [toHex_length, sha512Bytes_length]
  · rw [heq]
    exact toHex_mem _ (sha512Bytes_lt _)
  · intro p' s' hp hs
    rw [hp, hs]

set_option maxRecDepth 100000 in
/-- Witness for C3 at concrete inputs: the digest of `("pw", "salt")` has
length 128 and is determined by its inputs, and the first character of the
digest of `("", "")` is the lowercase hex digit `c`. -/
theorem do_login_hash_spec_witness :
    (do_login_hash "pw" "salt").length = 128 ∧
    do_login_hash "pw" "salt" = do_login_hash "pw" "salt" ∧
    'c' ∈ "0123456789abcdef".data :=
  ⟨(do_login_hash_spec "pw" "salt").2.1,
   (do_login_hash_spec "pw" "salt").2.2.2 "pw" "salt" rfl rfl,
   (do_login_hash_spec "" "").2.2.1 'c' (by decide)⟩

/-- C4 counterexample: with a success status and a `Session` cookie whose
value `"abc"` does not parse, `do_login` panics (`parse().unwrap()`); it does
not return an error result of any kind, in particular not a
`FetchError::Json`/ParseError result as the claim states. -/
theorem do_login_unparseable_session_not_parse_error :
    (do_login "hunter2" "SALT" 200 [("Session", "abc")]).2 = .panicked ∧
    ((do_login "hunter2" "SALT" 200 [("Session", "abc")]).2).isFetchErr = false := by
  constructor <;> decide

/-- C4 (amended): for every login where the POST step succeeds and some
`Session` cookie value is not parseable as an unsigned integer, `do_login`
fails fatally — the `cookie.value().parse().unwrap()` panics rather than
returning a ParseError — and in particular never returns a credential with
the session silently defaulted to zero. -/
theorem do_login_unparseable_session_panics
    (password password_salt : String) (code : Nat) (cookies : List (String × String))
    (hcode : isSuccessStatus code)
    (hbad : ∃ v ∈ sessionValues cookies, parseU32 v = none) :
    (do_login password password_salt code cookies).2 = .panicked := by
  have hnone := processCookies_panics cookies AuthInfo.default hbad
  simp only [do_login, if_pos hcode, hnone]

/-- Witness for the amended C4: `Session=abc` under a 200 response panics. -/
theorem do_login_unparseable_session_panics_witness :
    (do_login "hunter2" "SALT" 200 [("XSRF-TOKEN", "tok"), ("Session", "abc")]).2 =
      .panicked :=
  do_login_unparseable_session_panics "hunter2" "SALT" 200
    [("XSRF-TOKEN", "tok"), ("Session", "abc")] (by decide) (by decide)

/-- C5: for every login where the POST step succeeds but the response lacks
the `XSRF-TOKEN` cookie or the `Session` cookie, `do_login` still returns an
`AuthInfo` in which the missing field holds the permissive default — empty
token and/or zero session — raising no error for the absence (stated for any
cookie list whose `Session` values, if any, parse). -/
theorem do_login_missing_cookies_defaults
    (password password_salt : String) (code : Nat) (cookies : List (String × String))
    (hcode : isSuccessStatus code)
    (hparse : ∀ v ∈ sessionValues cookies, (parseU32 v).isSome) :
    ∃ info : AuthInfo,
      (do_login password password_salt code cookies).2 = .ok info ∧
      (xsrfValues cookies = [] → info.token = "") ∧
      (sessionValues cookies = [] → info.session = 0) := by
  have hchar := processCookies_char cookies AuthInfo.default hparse
  refine ⟨⟨(xsrfValues cookies).getLastD "",
           ((sessionValues cookies).filterMap parseU32).getLastD 0⟩, ?_, ?_, ?_⟩
  · simp only [do_login, if_pos hcode, hchar]
    rfl
  · intro hempty
    show (xsrfValues cookies).getLastD "" = ""
    rw [hempty]
    rfl
  · intro hempty
    show ((sessionValues cookies).filterMap parseU32).getLastD 0 = 0
    rw [hempty, List.filterMap_nil]
    rfl

/-- Witness for C5: a 200 response with only an unrelated cookie yields an
`AuthInfo` with empty token and zero session. -/
theorem do_login_missing_cookies_defaults_witness :
    ∃ info : AuthInfo,
      (do_login "hunter2" "SALT" 200 [("Other", "zzz")]).2 = .ok info ∧
      (xsrfValues [("Other", "zzz")] = [] → info.token = "") ∧
      (sessionValues [("Other", "zzz")] = [] → info.session = 0) :=
  do_login_missing_cookies_defaults "hunter2" "SALT" 200 [("Other", "zzz")]
    (by decide) (by decide)

/-- C6: for every credential and every requested path, each request issued by
the authenticated client carries exactly the header `x-xsrf-token` set to the
credential's token and a `cookie` header `Session=<sessionId>;`; the headers
are fixed by `buildAuthHeaders` at client construction and identical on every
subsequent request, whatever the path. -/
theorem fetch_api_fixed_auth_headers
    (auth : AuthInfo) (hdrs : List (String × String)) (api api' : String)
    (hbuild : buildAuthHeaders auth = some hdrs) :
    (fetch_api hdrs api).headers =
      [("x-xsrf-token", auth.token),
       ("cookie", "Session=" ++ toString auth.session ++ ";")] ∧
    (fetch_api hdrs api).headers = (fetch_api hdrs api').headers := by
  unfold buildAuthHeaders at hbuild
  split at hbuild
  · split at hbuild
    · simp only [Option.some.injEq] at hbuild
      subst hbuild
      exact ⟨rfl, rfl⟩
    · cases hbuild
  · cases hbuild

/-- Witness for C6: the client built from the credential `(tok, 1234)` sends
the same two fixed headers on `network/1` and on `logout`. -/
theorem fetch_api_fixed_auth_headers_witness :
    (fetch_api [("x-xsrf-token", "tok"), ("cookie", "Session=1234;")] "network/1").headers =
      [("x-xsrf-token", "tok"), ("cookie", "Session=1234;")] ∧
    (fetch_api [("x-xsrf-token", "tok"), ("cookie", "Session=1234;")] "network/1").headers =
      (fetch_api [("x-xsrf-token", "tok"), ("cookie", "Session=1234;")] "logout").headers :=
  fetch_api_fixed_auth_headers ⟨"tok", 1234⟩
    [("x-xsrf-token", "tok"), ("cookie", "Session=1234;")] "network/1" "logout" (by decide)

/-- C7 counterexample: a run in which the `network/1` fetch succeeded, the
body parsed, the metrics extracted, but the sink push got status 500: `main`
returns the push error without ever attempting the logout call. -/
theorem main_push_failure_skips_logout :
    (mainAfterAuth ⟨.ok "raw", .ok (networkDoc 1 2 3 4), some "http://influx/db", 500, .ok ""⟩).1 =
      [.fetchNetwork, .saveToInflux] ∧
    MainStep.fetchLogout ∉
      (mainAfterAuth ⟨.ok "raw", .ok (networkDoc 1 2 3 4), some "http://influx/db", 500, .ok ""⟩).1 ∧
    (⟨.ok "raw", .ok (networkDoc 1 2 3 4), some "http://influx/db", 500, .ok ""⟩ :
        PostAuthEnv).networkResult = .ok "raw" := by
  refine ⟨?_, ?_, rfl⟩ <;> decide

/-- C7 (amended): the logout call is attempted only in runs where the
`network/1` fetch succeeded, its body parsed, metric extraction succeeded,
and — when a sink URI was supplied — the sink push succeeded (status 204);
under those conditions logout is always attempted, and a failed sink push
makes `main` return before the logout step. -/
theorem main_attempts_logout_after_success
    (env : PostAuthEnv) (raw : String) (data : Json) (m : Nat × Nat × Nat × Nat)
    (hfetch : env.networkResult = .ok raw)
    (hparse : env.parseResult = .ok data)
    (hmetrics : extractMetrics data = some m)
    (hsink : ∀ uri, env.influxUri = some uri → env.sinkStatus = 204) :
    MainStep.fetchLogout ∈ (mainAfterAuth env).1 := by
  unfold mainAfterAuth
  simp only [hfetch, hparse, hmetrics]
  cases huri : env.influxUri with
  | none => cases env.logoutResult <;> simp
  | some uri =>
    rw [hsink uri huri]
    have hsave : save_data 204 = .ok () := by simp [save_data]
    simp only [hsave]
    cases env.logoutResult <;> simp

/-- Witness for the amended C7: with no sink configured and all steps
succeeding, logout is attempted. -/
theorem main_attempts_logout_after_success_witness :
    MainStep.fetchLogout ∈
      (mainAfterAuth ⟨.ok "raw", .ok (networkDoc 1 2 3 4), none, 0, .ok ""⟩).1 :=
  main_attempts_logout_after_success
    ⟨.ok "raw", .ok (networkDoc 1 2 3 4), none, 0, .ok ""⟩ "raw" (networkDoc 1 2 3 4)
    (8, 16, 24, 32) rfl rfl (by decide) (by intro uri h; cases h)

/-- C8: for every sink push, the push step succeeds iff the sink responds
with HTTP 204 (any other status is a fatal error for the push step), and the
request `save_data` sends carries content-type
`application/json;charset=UTF-8` with the line-oriented plaintext as body. -/
theorem save_data_spec (status : Nat) (uri body : String) :
    (save_data status = .ok () ↔ status = 204) ∧
    (save_data_request uri body).contentType = "application/json;charset=UTF-8" ∧
    (save_data_request uri body).body = body := by
  refine ⟨?_, rfl, rfl⟩
  unfold save_data
  by_cases h : status = 204 <;> simp [h]

/-- C9: for every well-formed network-status document — one where the four
fixed paths `bandwidth.minutesRx[0]`, `bandwidth.minutesTx[0]`, `rxErrors`,
`rxDropped` hold `u64` numbers — metric extraction returns exactly those four
integers each multiplied by 8 (as `u64` multiplication). -/
theorem extractMetrics_fixed_paths
    (data : Json) (rx tx errors dropped : Nat)
    (hrx : (((data.get "bandwidth").get "minutesRx").idx 0).asU64 = some rx)
    (htx : (((data.get "bandwidth").get "minutesTx").idx 0).asU64 = some tx)
    (herr : (data.get "rxErrors").asU64 = some errors)
    (hdrop : (data.get "rxDropped").asU64 = some dropped) :
    extractMetrics data =
      some (rx * 8 % 2 ^ 64, tx * 8 % 2 ^ 64, errors * 8 % 2 ^ 64, dropped * 8 % 2 ^ 64) := by
  unfold extractMetrics
  rw [hrx, htx, herr, hdrop]
  rfl

/-- Witness for C9, the spec's concrete instance:
`{"bandwidth":{"minutesRx":[10],"minutesTx":[20]},"rxErrors":1,"rxDropped":2}`
yields `rx=80, tx=160, errors=8, dropped=16`. -/
theorem extractMetrics_fixed_paths_witness :
    extractMetrics (networkDoc 10 20 1 2) = some (80, 160, 8, 16) :=
  extractMetrics_fixed_paths (networkDoc 10 20 1 2) 10 20 1 2
    (by decide) (by decide) (by decide) (by decide)

/-- C10: each counter accepted by `as_u64` (hence `< 2 ^ 64`) is scaled by an
unchecked 64-bit multiplication by 8, so the emitted value equals exactly
8 times the source counter iff the counter is less than `2 ^ 61`; from
`2 ^ 61` on, the multiplication wraps mod `2 ^ 64`. -/
theorem scale8_exact_iff_below_2_61 (j : Json) (n : Nat)
    (h : j.asU64 = some n) :
    scale8 n = 8 * n ↔ n < 2 ^ 61 := by
  have hn : n < 2 ^ 64 := by
    cases j with
    | num k =>
      simp only [Json.asU64] at h
      split at h
      · injection h with hk
        subst hk
        assumption
      · cases h
    | null => cases h
    | bool b => cases h
    | str s => cases h
    | arr elems => cases h
    | obj fields => cases h
  have h64 : (2 : Nat) ^ 64 = 18446744073709551616 := by norm_num
  have h61 : (2 : Nat) ^ 61 = 2305843009213693952 := by norm_num
  unfold scale8
  rw [h64, h61] at *
  omega

/-- Witness for C10: the counter 5 comes out of `as_u64` and scales exactly
(40 = 8 × 5, and 5 < `2 ^ 61`). -/
theorem scale8_exact_iff_below_2_61_witness :
    (scale8 5 = 8 * 5 ↔ 5 < 2 ^ 61) ∧ (Json.num 5).asU64 = some 5 :=
  ⟨scale8_exact_iff_below_2_61 (.num 5) 5 (by decide), by decide⟩

end FiosStats
